import Mathlib

/-!
Shallow embedding of the mechalink socket server notification pipeline and
chat relay (src/socketServer.js).  The repository file carries two revisions
of the server; this development embeds the later revision — the one built
around the `sendNotification` helper that records notifications with the
store's set-membership insert and derives each record id deterministically
from the document id — which the design notes designate as superseding the
earlier list-prepend revision.

Conventions of the embedding:
* a possibly-missing JavaScript field is an `Option`; reading a field of a
  missing object raises `JsError.typeError`;
* the store and the broadcast channel are explicit state (`WorldState`);
* a handler is a function from state to state paired with the error that
  escaped it, if any (`WorldState × Option JsError`); an error that the
  source catches is swallowed by the outer handler, an error in a watcher
  without a try/catch is returned;
* wall-clock time is an explicit `now : Nat` argument standing for the
  value of `new Date()` during that run.
-/

namespace MechaLink

/-- Operation types of change-feed events that the watchers inspect. -/
inductive OpType where
  | insert
  | update
  | other
deriving DecidableEq

/-- The fields of a serviceRequest document read by the watcher
(`_id`, `userEmail`, `userId`); a missing field is `none`. -/
structure SRDoc where
  _id : Option String
  userEmail : Option String
  userId : Option String
deriving DecidableEq

/-- The nested `shop` object of a mechanicShop document. -/
structure ShopInfo where
  shopName : Option String
deriving DecidableEq

/-- The fields of a mechanicShop document read by the watchers. -/
structure ShopDoc where
  _id : Option String
  shop : Option ShopInfo
  userEmail : Option String
  createdAt : Option Nat
deriving DecidableEq

/-- The fields of an announcement document read by its watcher. -/
structure AnnouncementDoc where
  _id : Option String
  title : Option String
  createdAt : Option Nat
deriving DecidableEq

/-- The fields of a coupon document read by its watcher. -/
structure CouponDoc where
  _id : Option String
  code : Option String
  createdAt : Option Nat
deriving DecidableEq

/-- `change.updateDescription.updatedFields` — only `assignedShopId` is read. -/
structure UpdatedFields where
  assignedShopId : Option String
deriving DecidableEq

/-- `change.updateDescription`. -/
structure UpdateDesc where
  updatedFields : UpdatedFields
deriving DecidableEq

/-- A change-feed event as consumed by a watcher callback; `α` is the shape
of the watched collection's documents. -/
structure ChangeEvent (α : Type) where
  operationType : OpType
  fullDocument : Option α
  updateDescription : Option UpdateDesc
deriving DecidableEq

/-- The five logical event kinds for which the watchers synthesize a
notification record. -/
inductive NotifKind where
  | serviceRequestInsert
  | assignmentUpdate
  | mechanicShopInsert
  | announcementInsert
  | couponInsert
deriving DecidableEq

/-- The string stem each watcher prepends to the document id. -/
def notifIdStem : NotifKind → String
  | .serviceRequestInsert => "serviceRequest"
  | .assignmentUpdate => "assignment"
  | .mechanicShopInsert => "mechanicShop"
  | .announcementInsert => "announcement"
  | .couponInsert => "coupon"

/-- The deterministic record id built by every watcher:
stem of the event kind, an underscore, then `fullDoc._id.toString()`. -/
def notifId (k : NotifKind) (docId : String) : String :=
  notifIdStem k ++ "_" ++ docId

/-- The `data` payload placed in a notification record. -/
inductive NotifData where
  | sr (d : SRDoc)
  | assignment (serviceId : Option String) (shopId : String)
      (assignedUserId : Option String)
  | shop (d : ShopDoc)
  | announcement (d : AnnouncementDoc)
  | coupon (d : CouponDoc)
deriving DecidableEq

/-- A notification record as built by the watchers. -/
structure Notif where
  _id : String
  message : String
  type : String
  data : NotifData
  createdAt : Nat
  read : Bool
  userEmail : Option String
deriving DecidableEq

/-- A user document: the fields the pipeline reads (`email`, `role`) and the
`notifications` array it writes. -/
structure User where
  email : Option String
  role : Option String
  notifications : List Notif
deriving DecidableEq

/-- The observable world: the users collection and the log of broadcast
emissions (`io.emit` events, each delivered to every connected client). -/
structure WorldState where
  users : List User
  emitted : List (String × Notif)
deriving DecidableEq

/-- Errors of the embedded JavaScript: a property access on a missing
object, an invalid ObjectId string, a rejected store write, a failed
realtime push. -/
inductive JsError where
  | typeError
  | bsonError
  | dbError
  | pushError
deriving DecidableEq

/-- The query filters the pipeline passes to `users.updateMany`. -/
inductive Filter where
  | byEmail (e : Option String)
  | byRoleIn (roles : List String)
  | byRoleEq (r : String)
deriving DecidableEq

/-- Whether a user document matches a filter. -/
def matchesFilter : Filter → User → Bool
  | .byEmail e, u => u.email == e
  | .byRoleIn rs, u =>
    match u.role with
    | some r => rs.contains r
    | none => false
  | .byRoleEq r, u => u.role == some r

/-- Mongo `$addToSet`: append the value iff no element of the array equals
it — whole-record equality, not comparison by id. -/
def addToSet (xs : List Notif) (n : Notif) : List Notif :=
  if n ∈ xs then xs else xs ++ [n]

/-- Effect of `updateMany(filter, {$addToSet: ...})` on a single user. -/
def applyFilterAdd (f : Filter) (n : Notif) (u : User) : User :=
  if matchesFilter f u then { u with notifications := addToSet u.notifications n }
  else u

/-- `users.updateMany(filter, {$addToSet: {notifications: notif}})`. -/
def updateManyAddToSet (us : List User) (f : Filter) (n : Notif) : List User :=
  us.map (applyFilterAdd f n)

/-- The `sendNotification` helper: await the set-membership store write,
then `io.emit` the record.  `dbFail` models the store write rejecting,
`pushFail` models the realtime push failing; either failure surfaces as an
escaped error for the caller to handle, and a failed push happens strictly
after the committed write. -/
def sendNotification (dbFail pushFail : Bool) (st : WorldState)
    (filter : Filter) (notif : Notif) (socketEvent : String) :
    WorldState × Option JsError :=
  if dbFail then (st, some .dbError)
  else
    let st1 : WorldState := { st with users := updateManyAddToSet st.users filter notif }
    if pushFail then (st1, some .pushError)
    else ({ st1 with emitted := st1.emitted ++ [(socketEvent, notif)] }, none)

/-- Sequencing of two awaited steps: an escaped error in the first step
skips the second. -/
def andThenE (r : WorldState × Option JsError)
    (k : WorldState → WorldState × Option JsError) : WorldState × Option JsError :=
  match r with
  | (st, none) => k st
  | (st, some e) => (st, some e)

/-- `${x}` string interpolation of a possibly-missing field. -/
def optStr : Option String → String
  | some s => s
  | none => "undefined"

/-- Whether `new ObjectId(s)` accepts the string: 24 hexadecimal
characters; anything else throws. -/
def validObjectIdString (s : String) : Bool :=
  s.length == 24 && s.data.all (fun c =>
    c.isDigit || ("abcdefABCDEF".data.contains c))

/-- `mechanicShops.findOne({_id: oid})`. -/
def findShopById (shops : List ShopDoc) (oid : String) : Option ShopDoc :=
  shops.find? (fun d => d._id == some oid)

/-- `shopDoc?.shop?.shopName || "Assigned Shop"` — a missing document, a
missing field chain or an empty (falsy) name all degrade to the fallback. -/
def resolveShopName (shopDoc : Option ShopDoc) : String :=
  match (shopDoc.bind (fun d => d.shop)).bind (fun s => s.shopName) with
  | some nm => if nm == "" then "Assigned Shop" else nm
  | none => "Assigned Shop"

/-- The record synthesized for a serviceRequest insert. -/
def mkSrInsertNotif (fullDoc : SRDoc) (docId : String) (now : Nat) : Notif :=
  { _id := notifId .serviceRequestInsert docId
    message := "New service request added!"
    type := "serviceRequest"
    data := .sr fullDoc
    createdAt := now
    read := false
    userEmail := fullDoc.userEmail }

/-- The record synthesized for an assignment update. -/
def mkAssignmentNotif (fullDoc : SRDoc) (docId shopId shopName : String)
    (now : Nat) : Notif :=
  { _id := notifId .assignmentUpdate docId
    message := "Service request assigned to \"" ++ shopName ++ "\""
    type := "assignment"
    data := .assignment fullDoc._id shopId fullDoc.userId
    createdAt := now
    read := false
    userEmail := fullDoc.userEmail }

/-- The record synthesized for a mechanicShop insert. -/
def mkShopNotif (fullDoc : ShopDoc) (docId : String) (now : Nat) : Notif :=
  { _id := notifId .mechanicShopInsert docId
    message := "New mechanic shop added: " ++
      optStr (fullDoc.shop.bind (fun s => s.shopName))
    type := "mechanicShopAdded"
    data := .shop fullDoc
    createdAt := fullDoc.createdAt.getD now
    read := false
    userEmail := fullDoc.userEmail }

/-- The record synthesized for an announcement insert. -/
def mkAnnNotif (fullDoc : AnnouncementDoc) (docId : String) (now : Nat) : Notif :=
  { _id := notifId .announcementInsert docId
    message := "New announcement: " ++ optStr fullDoc.title
    type := "announcement"
    data := .announcement fullDoc
    createdAt := fullDoc.createdAt.getD now
    read := false
    userEmail := some "all" }

/-- The record synthesized for a coupon insert. -/
def mkCouponNotif (fullDoc : CouponDoc) (docId : String) (now : Nat) : Notif :=
  { _id := notifId .couponInsert docId
    message := "New coupon available: " ++ optStr fullDoc.code
    type := "coupon"
    data := .coupon fullDoc
    createdAt := fullDoc.createdAt.getD now
    read := false
    userEmail := some "all" }

/-- Body of the serviceRequests watcher callback (the code inside its
`try`).  An insert synthesizes one record and delivers it to the
requester's email and to the mechanic/admin role set; an update whose
delta carries a truthy `assignedShopId` resolves the shop name (falling
back on a lookup miss) and delivers an assignment record to the
requester's email and to the admin role. -/
def srInner (dbFail pushFail : Bool) (shops : List ShopDoc) (st : WorldState)
    (change : ChangeEvent SRDoc) (now : Nat) : WorldState × Option JsError :=
  match change.operationType with
  | .insert =>
    match change.fullDocument with
    | none => (st, some .typeError)
    | some fullDoc =>
      match fullDoc._id with
      | none => (st, some .typeError)
      | some docId =>
        andThenE
          (sendNotification dbFail pushFail st (.byEmail fullDoc.userEmail)
            (mkSrInsertNotif fullDoc docId now) "serviceRequestNotification")
          (fun st1 =>
            sendNotification dbFail pushFail st1 (.byRoleIn ["mechanic", "admin"])
              (mkSrInsertNotif fullDoc docId now) "serviceRequestNotification")
  | .update =>
    match change.updateDescription with
    | none => (st, some .typeError)
    | some ud =>
      match ud.updatedFields.assignedShopId with
      | none => (st, none)
      | some shopId =>
        if shopId == "" then (st, none)
        else if validObjectIdString shopId then
          let shopName := resolveShopName (findShopById shops shopId)
          match change.fullDocument with
          | none => (st, some .typeError)
          | some fullDoc =>
            match fullDoc._id with
            | none => (st, some .typeError)
            | some docId =>
              andThenE
                (sendNotification dbFail pushFail st (.byEmail fullDoc.userEmail)
                  (mkAssignmentNotif fullDoc docId shopId shopName now)
                  "assignmentNotification")
                (fun st1 =>
                  sendNotification dbFail pushFail st1 (.byRoleEq "admin")
                    (mkAssignmentNotif fullDoc docId shopId shopName now)
                    "assignmentNotification")
        else (st, some .bsonError)
  | .other => (st, none)

/-- The serviceRequests watcher callback: its whole body runs inside
try/catch, so every escaped error of the body is logged and swallowed. -/
def serviceRequestsHandler (dbFail pushFail : Bool) (shops : List ShopDoc)
    (st : WorldState) (change : ChangeEvent SRDoc) (now : Nat) :
    WorldState × Option JsError :=
  ((srInner dbFail pushFail shops st change now).1, none)

/-- The mechanicShops watcher callback.  Unlike the serviceRequests
watcher, its body has no try/catch: an error escapes the callback. -/
def mechanicShopsHandler (dbFail pushFail : Bool) (st : WorldState)
    (change : ChangeEvent ShopDoc) (now : Nat) : WorldState × Option JsError :=
  match change.operationType with
  | .insert =>
    match change.fullDocument with
    | none => (st, some .typeError)
    | some fullDoc =>
      match fullDoc._id with
      | none => (st, some .typeError)
      | some docId =>
        sendNotification dbFail pushFail st (.byRoleEq "admin")
          (mkShopNotif fullDoc docId now) "mechanicShopNotification"
  | _ => (st, none)

/-- The announcements watcher callback (no try/catch). -/
def announcementsHandler (dbFail pushFail : Bool) (st : WorldState)
    (change : ChangeEvent AnnouncementDoc) (now : Nat) :
    WorldState × Option JsError :=
  match change.operationType with
  | .insert =>
    match change.fullDocument with
    | none => (st, some .typeError)
    | some fullDoc =>
      match fullDoc._id with
      | none => (st, some .typeError)
      | some docId =>
        sendNotification dbFail pushFail st (.byRoleIn ["user", "mechanic"])
          (mkAnnNotif fullDoc docId now) "announcementNotification"
  | _ => (st, none)

/-- The coupons watcher callback (no try/catch). -/
def couponsHandler (dbFail pushFail : Bool) (st : WorldState)
    (change : ChangeEvent CouponDoc) (now : Nat) : WorldState × Option JsError :=
  match change.operationType with
  | .insert =>
    match change.fullDocument with
    | none => (st, some .typeError)
    | some fullDoc =>
      match fullDoc._id with
      | none => (st, some .typeError)
      | some docId =>
        sendNotification dbFail pushFail st (.byRoleIn ["user", "mechanic"])
          (mkCouponNotif fullDoc docId now) "couponNotification"
  | _ => (st, none)

/-- Room membership as (roomId, socketId) pairs. -/
def roomMembers (rooms : List (String × String)) (roomId : String) : List String :=
  (rooms.filter (fun m => m.1 == roomId)).map (fun m => m.2)

/-- `socket.join(chatId)` — idempotent room join. -/
def joinChat (rooms : List (String × String)) (socketId chatId : String) :
    List (String × String) :=
  if (chatId, socketId) ∈ rooms then rooms else rooms ++ [(chatId, socketId)]

/-- `socket.to(room).emit(...)`: delivered to every socket currently in the
room except the emitting socket. -/
def socketToRoomRecipients (rooms : List (String × String))
    (selfId roomId : String) : List String :=
  (roomMembers rooms roomId).filter (fun s => s != selfId)

/-- `io.to(room).emit(...)`: delivered to every socket currently in the
room, the emitting socket included when it is a member. -/
def ioToRoomRecipients (rooms : List (String × String)) (roomId : String) :
    List String :=
  roomMembers rooms roomId

/-- Payload of a `sendMessage` client event. -/
structure ChatMessage where
  chatId : String
  senderId : String
  body : String
deriving DecidableEq

/-- A relay pushed by the room multiplexer: the client-facing event name
and the sockets it reaches. -/
structure Relay where
  eventName : String
  recipients : List String
deriving DecidableEq

/-- `socket.on("sendMessage", ...)`: relay `newMessage` to the whole room. -/
def sendMessageHandler (rooms : List (String × String)) (msg : ChatMessage) :
    Relay :=
  { eventName := "newMessage", recipients := ioToRoomRecipients rooms msg.chatId }

/-- `socket.on("typing", ...)`: relay `typing` to the room minus the sender. -/
def typingHandler (rooms : List (String × String)) (socketId chatId : String) :
    Relay :=
  { eventName := "typing"
    recipients := socketToRoomRecipients rooms socketId chatId }

/-- `socket.on("stopTyping", ...)`: mirrors `typing`. -/
def stopTypingHandler (rooms : List (String × String)) (socketId chatId : String) :
    Relay :=
  { eventName := "stopTyping"
    recipients := socketToRoomRecipients rooms socketId chatId }

/-! ### Helper lemmas -/

lemma string_data_inj {s t : String} (h : s.data = t.data) : s = t := by
  cases s with
  | mk a => cases t with
    | mk b => exact congrArg String.mk h

lemma list_append_cancel {α : Type} {a b c : List α} (h : a ++ b = a ++ c) :
    b = c := by
  induction a with
  | nil => simpa using h
  | cons x xs ih => exact ih (by simpa using h)

lemma notifId_data (k : NotifKind) (d : String) :
    (notifId k d).data = (notifIdStem k).data ++ ('_' :: d.data) := by
  obtain ⟨l⟩ := d
  cases k <;> rfl

lemma append_ne_of_heads_ne {a b c d : Char} {p q r s : List Char}
    (h2 : ¬(a = c ∧ b = d)) : (a :: b :: p) ++ r ≠ (c :: d :: q) ++ s := by
  intro h
  simp only [List.cons_append] at h
  obtain ⟨h1, hrest⟩ := List.cons.inj h
  obtain ⟨hb, _⟩ := List.cons.inj hrest
  exact h2 ⟨h1, hb⟩

lemma notifId_inj {k₁ k₂ : NotifKind} {d₁ d₂ : String}
    (h : notifId k₁ d₁ = notifId k₂ d₂) : k₁ = k₂ ∧ d₁ = d₂ := by
  have hd := congrArg String.data h
  rw [notifId_data, notifId_data] at hd
  cases k₁ <;> cases k₂ <;>
    first
      | exact absurd hd (append_ne_of_heads_ne (by decide))
      | exact ⟨rfl, string_data_inj (List.cons.inj (list_append_cancel hd)).2⟩

lemma mem_addToSet_self (xs : List Notif) (n : Notif) : n ∈ addToSet xs n := by
  unfold addToSet
  split
  · assumption
  · simp

lemma mem_addToSet_of_mem {xs : List Notif} {m : Notif} (n : Notif)
    (h : m ∈ xs) : m ∈ addToSet xs n := by
  unfold addToSet
  split
  · exact h
  · simp [h]

lemma addToSet_of_mem {xs : List Notif} {n : Notif} (h : n ∈ xs) :
    addToSet xs n = xs := by
  unfold addToSet
  simp [h]

lemma count_addToSet_of_not_mem {xs : List Notif} {n : Notif} (h : n ∉ xs) :
    (addToSet xs n).count n = 1 := by
  unfold addToSet
  rw [if_neg h, List.count_append, List.count_eq_zero.mpr h]
  simp

lemma applyFilterAdd_email (f : Filter) (n : Notif) (u : User) :
    (applyFilterAdd f n u).email = u.email := by
  unfold applyFilterAdd
  split <;> rfl

lemma applyFilterAdd_role (f : Filter) (n : Notif) (u : User) :
    (applyFilterAdd f n u).role = u.role := by
  unfold applyFilterAdd
  split <;> rfl

lemma matchesFilter_applyFilterAdd (f g : Filter) (n : Notif) (u : User) :
    matchesFilter f (applyFilterAdd g n u) = matchesFilter f u := by
  cases f <;>
    simp only [matchesFilter, applyFilterAdd_email, applyFilterAdd_role]

lemma mem_applyFilterAdd_of_mem {u : User} {m : Notif} (f : Filter) (n : Notif)
    (h : m ∈ u.notifications) : m ∈ (applyFilterAdd f n u).notifications := by
  unfold applyFilterAdd
  split
  · exact mem_addToSet_of_mem n h
  · exact h

lemma mem_applyFilterAdd_self {u : User} {f : Filter} (n : Notif)
    (h : matchesFilter f u = true) : n ∈ (applyFilterAdd f n u).notifications := by
  unfold applyFilterAdd
  rw [if_pos h]
  exact mem_addToSet_self u.notifications n

lemma applyFilterAdd_of_mem {u : User} {n : Notif} (f : Filter)
    (h : n ∈ u.notifications) : applyFilterAdd f n u = u := by
  unfold applyFilterAdd
  rw [addToSet_of_mem h]
  split <;> rfl

/-- After the two audience-branch inserts of one record, a user matching at
least one branch holds the record, and holds it exactly once when it was
absent before. -/
lemma count_after_two_filters {u : User} {f₁ f₂ : Filter} {n : Notif}
    (hm : matchesFilter f₁ u = true ∨ matchesFilter f₂ u = true)
    (hn : n ∉ u.notifications) :
    n ∈ (applyFilterAdd f₂ n (applyFilterAdd f₁ n u)).notifications ∧
      (applyFilterAdd f₂ n (applyFilterAdd f₁ n u)).notifications.count n = 1 := by
  cases hb : matchesFilter f₁ u with
  | true =>
    have h1 : n ∈ (applyFilterAdd f₁ n u).notifications :=
      mem_applyFilterAdd_self n hb
    rw [applyFilterAdd_of_mem f₂ h1]
    refine ⟨h1, ?_⟩
    unfold applyFilterAdd
    rw [if_pos hb]
    exact count_addToSet_of_not_mem hn
  | false =>
    have h0 : applyFilterAdd f₁ n u = u := by
      unfold applyFilterAdd
      rw [if_neg (by simp [hb])]
    rw [h0]
    have hm2 : matchesFilter f₂ u = true := by
      rcases hm with h | h
      · rw [hb] at h
        cases h
      · exact h
    refine ⟨mem_applyFilterAdd_self n hm2, ?_⟩
    unfold applyFilterAdd
    rw [if_pos hm2]
    exact count_addToSet_of_not_mem hn

/-- Both branch inserts leave a record already present untouched in count
and membership. -/
lemma count_applyFilterAdd_of_mem {u : User} {n : Notif} (f : Filter)
    (h : n ∈ u.notifications) :
    (applyFilterAdd f n u).notifications.count n = u.notifications.count n ∧
      n ∈ (applyFilterAdd f n u).notifications := by
  rw [applyFilterAdd_of_mem f h]
  exact ⟨rfl, h⟩

/-- The serviceRequests watcher never lets an error escape: its entire body
is wrapped in try/catch. -/
lemma srHandler_err_none (dbFail pushFail : Bool) (shops : List ShopDoc)
    (st : WorldState) (change : ChangeEvent SRDoc) (now : Nat) :
    (serviceRequestsHandler dbFail pushFail shops st change now).2 = none := rfl

/-- Characterization of a successful insert run of the serviceRequests
watcher: both audience branches insert the one synthesized record and the
broadcast fires once per branch. -/
lemma srHandler_insert_run (shops : List ShopDoc) (st : WorldState)
    (ch : ChangeEvent SRDoc) (now : Nat) (fd : SRDoc) (docId : String)
    (hop : ch.operationType = .insert) (hfd : ch.fullDocument = some fd)
    (hid : fd._id = some docId) :
    serviceRequestsHandler false false shops st ch now =
      ({ users := st.users.map (fun u =>
            applyFilterAdd (.byRoleIn ["mechanic", "admin"])
              (mkSrInsertNotif fd docId now)
              (applyFilterAdd (.byEmail fd.userEmail)
                (mkSrInsertNotif fd docId now) u))
         emitted := st.emitted ++
           [("serviceRequestNotification", mkSrInsertNotif fd docId now),
            ("serviceRequestNotification", mkSrInsertNotif fd docId now)] },
       none) := by
  obtain ⟨op, fdoc, ud⟩ := ch
  simp only at hop hfd
  subst hop
  subst hfd
  simp [serviceRequestsHandler, srInner, hid, sendNotification, andThenE,
    updateManyAddToSet, List.map_map, Function.comp]

/-- Characterization of a successful assignment-update run of the
serviceRequests watcher. -/
lemma srHandler_update_run (shops : List ShopDoc) (st : WorldState)
    (ch : ChangeEvent SRDoc) (now : Nat) (fd : SRDoc) (docId shopId : String)
    (hop : ch.operationType = .update)
    (hud : ch.updateDescription =
      some { updatedFields := { assignedShopId := some shopId } })
    (hne : shopId ≠ "") (hvalid : validObjectIdString shopId = true)
    (hfd : ch.fullDocument = some fd) (hid : fd._id = some docId) :
    serviceRequestsHandler false false shops st ch now =
      ({ users := st.users.map (fun u =>
            applyFilterAdd (.byRoleEq "admin")
              (mkAssignmentNotif fd docId shopId
                (resolveShopName (findShopById shops shopId)) now)
              (applyFilterAdd (.byEmail fd.userEmail)
                (mkAssignmentNotif fd docId shopId
                  (resolveShopName (findShopById shops shopId)) now) u))
         emitted := st.emitted ++
           [("assignmentNotification",
              mkAssignmentNotif fd docId shopId
                (resolveShopName (findShopById shops shopId)) now),
            ("assignmentNotification",
              mkAssignmentNotif fd docId shopId
                (resolveShopName (findShopById shops shopId)) now)] },
       none) := by
  obtain ⟨op, fdoc, ud⟩ := ch
  simp only at hop hud hfd
  subst hop
  subst hud
  subst hfd
  simp [serviceRequestsHandler, srInner, hid, hne, hvalid, sendNotification,
    andThenE, updateManyAddToSet, List.map_map, Function.comp]

/-- An update event whose attached full document is absent leaves the
store and the broadcast log untouched: the dereference error is caught at
the event boundary. -/
lemma srHandler_state_of_fullDoc_none (dbFail pushFail : Bool)
    (shops : List ShopDoc) (st : WorldState) (ch : ChangeEvent SRDoc)
    (now : Nat) (h : ch.fullDocument = none) :
    (serviceRequestsHandler dbFail pushFail shops st ch now).1 = st := by
  obtain ⟨op, fdoc, ud⟩ := ch
  simp only at h
  subst h
  cases op with
  | insert => rfl
  | other => rfl
  | update =>
    cases ud with
    | none => rfl
    | some u =>
      cases hs : u.updatedFields.assignedShopId with
      | none => simp [serviceRequestsHandler, srInner, hs]
      | some sid =>
        simp only [serviceRequestsHandler, srInner, hs]
        split
        · rfl
        · split <;> rfl

/-- An update event with no update description leaves the state untouched:
the dereference error is caught at the event boundary. -/
lemma srHandler_state_of_ud_none (dbFail pushFail : Bool)
    (shops : List ShopDoc) (st : WorldState) (ch : ChangeEvent SRDoc)
    (now : Nat) (hop : ch.operationType = .update)
    (h : ch.updateDescription = none) :
    (serviceRequestsHandler dbFail pushFail shops st ch now).1 = st := by
  obtain ⟨op, fdoc, ud⟩ := ch
  simp only at hop h
  subst hop
  subst h
  rfl

/-! ### Claim theorems -/

/-- C2: the id of every synthesized notification record is a pure function
of (entity kind, event kind, document id) — the five watcher branches all
build it with `notifId` — identical inputs give the identical id, distinct
(kind, document id) pairs never share an id, and re-synthesis at a
different time recomputes the same id. -/
theorem notifId_deterministic_and_injective (k₁ k₂ : NotifKind)
    (d₁ d₂ : String) (fd : SRDoc) (sh : ShopDoc) (an : AnnouncementDoc)
    (cp : CouponDoc) (docId shopId shopName : String) (t₁ t₂ : Nat) :
    (notifId k₁ d₁ = notifId k₂ d₂ ↔ (k₁ = k₂ ∧ d₁ = d₂)) ∧
    (mkSrInsertNotif fd docId t₁)._id = notifId .serviceRequestInsert docId ∧
    (mkAssignmentNotif fd docId shopId shopName t₁)._id =
      notifId .assignmentUpdate docId ∧
    (mkShopNotif sh docId t₁)._id = notifId .mechanicShopInsert docId ∧
    (mkAnnNotif an docId t₁)._id = notifId .announcementInsert docId ∧
    (mkCouponNotif cp docId t₁)._id = notifId .couponInsert docId ∧
    (mkSrInsertNotif fd docId t₁)._id = (mkSrInsertNotif fd docId t₂)._id := by
  refine ⟨⟨fun h => notifId_inj h, ?_⟩, rfl, rfl, rfl, rfl, rfl, rfl⟩
  rintro ⟨rfl, rfl⟩
  rfl

/-- C3 (counterexample): the mechanicShops watcher has no try/catch — a
store-write failure while fanning out a concrete shop insert escapes the
event's boundary instead of being caught and logged there, so the claimed
isolation does not hold for every watched collection. -/
theorem watcher_error_escape_counterexample :
    (mechanicShopsHandler true false
      { users := [{ email := some "m@x.com", role := some "admin",
                    notifications := [] }]
        emitted := [] }
      { operationType := .insert
        fullDocument := some
          { _id := some "7001", shop := some { shopName := some "Shop A" }
            userEmail := some "m@x.com", createdAt := some 5 }
        updateDescription := none }
      0).2 = some JsError.dbError := rfl

/-- C3 (amended): for the serviceRequests watcher — whose body is wrapped
in try/catch — no error escapes any event's boundary, under any failure
mode of the store or the push, so processing one event never halts the
processing of the next event of that watcher. -/
theorem serviceRequests_error_confined_amended (df₁ pf₁ df₂ pf₂ : Bool)
    (shops : List ShopDoc) (st : WorldState) (e₁ e₂ : ChangeEvent SRDoc)
    (t₁ t₂ : Nat) :
    (serviceRequestsHandler df₁ pf₁ shops st e₁ t₁).2 = none ∧
    (serviceRequestsHandler df₂ pf₂ shops
        (serviceRequestsHandler df₁ pf₁ shops st e₁ t₁).1 e₂ t₂).2 = none :=
  ⟨rfl, rfl⟩

/-- C4: `sendNotification` awaits the set-membership store write and only
then fires the realtime push: when both succeed the push is logged after
the completed write; a push failure leaves the completed write in place
and nothing pushed; a store-write failure pushes nothing and writes
nothing. -/
theorem push_after_store_write (st : WorldState) (f : Filter) (n : Notif)
    (ev : String) (pushF : Bool) :
    ((sendNotification false false st f n ev).1.users =
        updateManyAddToSet st.users f n ∧
      (sendNotification false false st f n ev).1.emitted =
        st.emitted ++ [(ev, n)]) ∧
    ((sendNotification false true st f n ev).1.users =
        updateManyAddToSet st.users f n ∧
      (sendNotification false true st f n ev).1.emitted = st.emitted) ∧
    ((sendNotification true pushF st f n ev).1.users = st.users ∧
      (sendNotification true pushF st f n ev).1.emitted = st.emitted) :=
  ⟨⟨rfl, rfl⟩, ⟨rfl, rfl⟩, ⟨rfl, rfl⟩⟩

/-- C7: a `typing` or `stopTyping` relay reaches exactly the current room
members other than the emitting socket — never the sender — while a
`sendMessage` relay (`newMessage`) reaches every current room member, the
sender included. -/
theorem chat_relay_membership (rooms : List (String × String))
    (socketId chatId m : String) (msg : ChatMessage) :
    (m ∈ (typingHandler rooms socketId chatId).recipients ↔
      (m ∈ roomMembers rooms chatId ∧ m ≠ socketId)) ∧
    (m ∈ (stopTypingHandler rooms socketId chatId).recipients ↔
      (m ∈ roomMembers rooms chatId ∧ m ≠ socketId)) ∧
    (sendMessageHandler rooms msg).recipients = roomMembers rooms msg.chatId := by
  refine ⟨?_, ?_, rfl⟩ <;>
    simp [typingHandler, stopTypingHandler, socketToRoomRecipients,
      List.mem_filter]

/-- C5: an insert on serviceRequests whose document carries
`userEmail = e` stores the synthesized record for every user whose email
is `e` and for every user whose role is mechanic or admin, and every one
of those stored copies carries the same deterministic id. -/
theorem serviceRequest_insert_fanout (shops : List ShopDoc) (st : WorldState)
    (ch : ChangeEvent SRDoc) (now : Nat) (fd : SRDoc) (docId e : String)
    (i : Nat) (u : User)
    (hop : ch.operationType = .insert) (hfd : ch.fullDocument = some fd)
    (hid : fd._id = some docId) (he : fd.userEmail = some e)
    (hu : st.users[i]? = some u)
    (hm : u.email = some e ∨ u.role = some "mechanic" ∨ u.role = some "admin") :
    ∃ v : User,
      (serviceRequestsHandler false false shops st ch now).1.users[i]? =
        some v ∧
      mkSrInsertNotif fd docId now ∈ v.notifications ∧
      (mkSrInsertNotif fd docId now)._id = notifId .serviceRequestInsert docId := by
  rw [srHandler_insert_run shops st ch now fd docId hop hfd hid]
  simp only [List.getElem?_map, hu]
  refine ⟨_, rfl, ?_, rfl⟩
  rcases hm with h | h | h
  · refine mem_applyFilterAdd_of_mem _ _ (mem_applyFilterAdd_self _ ?_)
    simp [matchesFilter, h, he]
  · apply mem_applyFilterAdd_self
    rw [matchesFilter_applyFilterAdd]
    simp [matchesFilter, h]
  · apply mem_applyFilterAdd_self
    rw [matchesFilter_applyFilterAdd]
    simp [matchesFilter, h]

/-- C9: when one user matches both audience branches of a serviceRequest
insert (its requester email branch and its mechanic/admin role branch),
the two successive set-membership inserts of the identical record leave
exactly one stored copy in that user's notification set. -/
theorem dual_audience_single_copy (shops : List ShopDoc) (st : WorldState)
    (ch : ChangeEvent SRDoc) (now : Nat) (fd : SRDoc) (docId : String)
    (i : Nat) (u : User)
    (hop : ch.operationType = .insert) (hfd : ch.fullDocument = some fd)
    (hid : fd._id = some docId) (hu : st.users[i]? = some u)
    (h₁ : matchesFilter (.byEmail fd.userEmail) u = true)
    (_h₂ : matchesFilter (.byRoleIn ["mechanic", "admin"]) u = true)
    (hn : mkSrInsertNotif fd docId now ∉ u.notifications) :
    ∃ v : User,
      (serviceRequestsHandler false false shops st ch now).1.users[i]? =
        some v ∧
      v.notifications.count (mkSrInsertNotif fd docId now) = 1 := by
  rw [srHandler_insert_run shops st ch now fd docId hop hfd hid]
  simp only [List.getElem?_map, hu]
  exact ⟨_, rfl, (count_after_two_filters (Or.inl h₁) hn).2⟩

/-- C1 (counterexample): synthesizing and delivering the same insert event
twice — the second run one clock tick later, so `createdAt` differs —
leaves TWO stored entries with the same record id in the recipient's
notification set: the set-membership insert compares whole records, not
ids, so the claimed per-id idempotence fails. -/
theorem fanout_replay_counterexample :
    ((serviceRequestsHandler false false []
        (serviceRequestsHandler false false []
          { users := [{ email := some "a@x.com", role := none,
                        notifications := [] }]
            emitted := [] }
          { operationType := .insert
            fullDocument := some
              { _id := some "6701", userEmail := some "a@x.com"
                userId := none }
            updateDescription := none }
          0).1
        { operationType := .insert
          fullDocument := some
            { _id := some "6701", userEmail := some "a@x.com"
              userId := none }
          updateDescription := none }
        1).1.users.map
      (fun u => (u.notifications.filter
        (fun n => n._id == "serviceRequest_6701")).length)) = [2] := by
  decide

/-- C1 (amended): delivering the same insert event twice with the same
synthesis timestamp — so the two synthesized records are identical —
leaves exactly one stored copy per matching recipient; only a replay whose
re-synthesis yields a byte-identical record is idempotent, since the store
insert deduplicates whole records rather than ids. -/
theorem fanout_replay_idempotent_amended (shops : List ShopDoc)
    (st : WorldState) (ch : ChangeEvent SRDoc) (now : Nat) (fd : SRDoc)
    (docId : String) (i : Nat) (u : User)
    (hop : ch.operationType = .insert) (hfd : ch.fullDocument = some fd)
    (hid : fd._id = some docId) (hu : st.users[i]? = some u)
    (hm : matchesFilter (.byEmail fd.userEmail) u = true ∨
      matchesFilter (.byRoleIn ["mechanic", "admin"]) u = true)
    (hn : mkSrInsertNotif fd docId now ∉ u.notifications) :
    ∃ v : User,
      (serviceRequestsHandler false false shops
          (serviceRequestsHandler false false shops st ch now).1
          ch now).1.users[i]? = some v ∧
      v.notifications.count (mkSrInsertNotif fd docId now) = 1 := by
  rw [srHandler_insert_run shops st ch now fd docId hop hfd hid]
  rw [srHandler_insert_run _ _ ch now fd docId hop hfd hid]
  simp only [List.getElem?_map, hu]
  obtain ⟨hmem, hcount⟩ := count_after_two_filters hm hn
  refine ⟨_, rfl, ?_⟩
  show List.count (mkSrInsertNotif fd docId now)
      (applyFilterAdd (.byRoleIn ["mechanic", "admin"])
        (mkSrInsertNotif fd docId now)
        (applyFilterAdd (.byEmail fd.userEmail) (mkSrInsertNotif fd docId now)
          (applyFilterAdd (.byRoleIn ["mechanic", "admin"])
            (mkSrInsertNotif fd docId now)
            (applyFilterAdd (.byEmail fd.userEmail)
              (mkSrInsertNotif fd docId now) u)))).notifications = 1
  rw [applyFilterAdd_of_mem _ hmem, applyFilterAdd_of_mem _ hmem]
  exact hcount

/-- C6: an assignment update pointing at a shop id that the shop lookup
does not find synthesizes the fallback message naming "Assigned Shop", no
error surfaces from the handler, and the pipeline still stores the record
for both audience branches and broadcasts it twice. -/
theorem assignment_lookup_miss_fallback (shops : List ShopDoc)
    (st : WorldState) (ch : ChangeEvent SRDoc) (now : Nat) (fd : SRDoc)
    (docId shopId : String)
    (hop : ch.operationType = .update)
    (hud : ch.updateDescription =
      some { updatedFields := { assignedShopId := some shopId } })
    (hne : shopId ≠ "") (hvalid : validObjectIdString shopId = true)
    (hmiss : findShopById shops shopId = none)
    (hfd : ch.fullDocument = some fd) (hid : fd._id = some docId) :
    (serviceRequestsHandler false false shops st ch now).2 = none ∧
    (mkAssignmentNotif fd docId shopId "Assigned Shop" now).message =
      "Service request assigned to \"Assigned Shop\"" ∧
    "Assigned Shop".data <:+:
      (mkAssignmentNotif fd docId shopId "Assigned Shop" now).message.data ∧
    (serviceRequestsHandler false false shops st ch now).1.emitted =
      st.emitted ++
        [("assignmentNotification",
           mkAssignmentNotif fd docId shopId "Assigned Shop" now),
         ("assignmentNotification",
           mkAssignmentNotif fd docId shopId "Assigned Shop" now)] ∧
    (serviceRequestsHandler false false shops st ch now).1.users =
      st.users.map (fun u =>
        applyFilterAdd (.byRoleEq "admin")
          (mkAssignmentNotif fd docId shopId "Assigned Shop" now)
          (applyFilterAdd (.byEmail fd.userEmail)
            (mkAssignmentNotif fd docId shopId "Assigned Shop" now) u)) := by
  rw [srHandler_update_run shops st ch now fd docId shopId hop hud hne hvalid
    hfd hid, hmiss]
  refine ⟨rfl, rfl, ?_, rfl, rfl⟩
  show "Assigned Shop".data <:+:
    "Service request assigned to \"Assigned Shop\"".data
  decide

/-- C8: the serviceRequests watcher tolerates an update event whose delta
or full current document is incomplete or absent: no error ever escapes
the event's try/catch boundary, and when the full document or the update
description is missing the event degrades to a logged no-op that leaves
the pipeline state unchanged. -/
theorem update_synthesis_tolerates_missing (dbFail pushFail : Bool)
    (shops : List ShopDoc) (st : WorldState) (ch : ChangeEvent SRDoc)
    (now : Nat) (hop : ch.operationType = .update) :
    (serviceRequestsHandler dbFail pushFail shops st ch now).2 = none ∧
    (ch.fullDocument = none →
      (serviceRequestsHandler dbFail pushFail shops st ch now).1 = st) ∧
    (ch.updateDescription = none →
      (serviceRequestsHandler dbFail pushFail shops st ch now).1 = st) :=
  ⟨rfl,
   fun h => srHandler_state_of_fullDoc_none dbFail pushFail shops st ch now h,
   fun h => srHandler_state_of_ud_none dbFail pushFail shops st ch now hop h⟩

/-- C10: each successful serviceRequest insert and each successful
assignment update broadcasts its realtime event to all connected clients
twice — once per audience branch — so every connected client receives the
same record payload two times. -/
theorem broadcast_twice_per_event (shops : List ShopDoc)
    (stI stU : WorldState) (chI chU : ChangeEvent SRDoc)
    (fdI fdU : SRDoc) (dI dU shopId : String) (tI tU : Nat)
    (hopI : chI.operationType = .insert) (hfdI : chI.fullDocument = some fdI)
    (hidI : fdI._id = some dI)
    (hopU : chU.operationType = .update)
    (hudU : chU.updateDescription =
      some { updatedFields := { assignedShopId := some shopId } })
    (hneU : shopId ≠ "") (hvalU : validObjectIdString shopId = true)
    (hfdU : chU.fullDocument = some fdU) (hidU : fdU._id = some dU) :
    (serviceRequestsHandler false false shops stI chI tI).1.emitted =
      stI.emitted ++
        [("serviceRequestNotification", mkSrInsertNotif fdI dI tI),
         ("serviceRequestNotification", mkSrInsertNotif fdI dI tI)] ∧
    (serviceRequestsHandler false false shops stU chU tU).1.emitted =
      stU.emitted ++
        [("assignmentNotification",
           mkAssignmentNotif fdU dU shopId
             (resolveShopName (findShopById shops shopId)) tU),
         ("assignmentNotification",
           mkAssignmentNotif fdU dU shopId
             (resolveShopName (findShopById shops shopId)) tU)] := by
  rw [srHandler_insert_run shops stI chI tI fdI dI hopI hfdI hidI,
    srHandler_update_run shops stU chU tU fdU dU shopId hopU hudU hneU hvalU
      hfdU hidU]
  exact ⟨rfl, rfl⟩

/-! ### Witness scenarios -/

def w5fd : SRDoc := { _id := some "6701", userEmail := some "a@x.com", userId := none }

def w5ch : ChangeEvent SRDoc :=
  { operationType := .insert, fullDocument := some w5fd, updateDescription := none }

def w5u : User := { email := some "b@x.com", role := some "mechanic", notifications := [] }

def w5st : WorldState := { users := [w5u], emitted := [] }

/-- Witness for C5 at a concrete mechanic recipient. -/
theorem serviceRequest_insert_fanout_witness :
    w5ch.operationType = .insert ∧ w5ch.fullDocument = some w5fd ∧
    w5fd._id = some "6701" ∧ w5fd.userEmail = some "a@x.com" ∧
    w5st.users[0]? = some w5u ∧
    (w5u.email = some "a@x.com" ∨ w5u.role = some "mechanic" ∨
      w5u.role = some "admin") ∧
    (∃ v : User,
      (serviceRequestsHandler false false [] w5st w5ch 0).1.users[0]? =
        some v ∧
      mkSrInsertNotif w5fd "6701" 0 ∈ v.notifications ∧
      (mkSrInsertNotif w5fd "6701" 0)._id =
        notifId .serviceRequestInsert "6701") :=
  ⟨rfl, rfl, rfl, rfl, rfl, Or.inr (Or.inl rfl),
    serviceRequest_insert_fanout [] w5st w5ch 0 w5fd "6701" "a@x.com" 0 w5u
      rfl rfl rfl rfl rfl (Or.inr (Or.inl rfl))⟩

def w9fd : SRDoc := { _id := some "6702", userEmail := some "a@x.com", userId := none }

def w9ch : ChangeEvent SRDoc :=
  { operationType := .insert, fullDocument := some w9fd, updateDescription := none }

def w9u : User := { email := some "a@x.com", role := some "mechanic", notifications := [] }

def w9st : WorldState := { users := [w9u], emitted := [] }

/-- Witness for C9 at a concrete user matching both audience branches. -/
theorem dual_audience_single_copy_witness :
    matchesFilter (.byEmail w9fd.userEmail) w9u = true ∧
    matchesFilter (.byRoleIn ["mechanic", "admin"]) w9u = true ∧
    mkSrInsertNotif w9fd "6702" 0 ∉ w9u.notifications ∧
    (∃ v : User,
      (serviceRequestsHandler false false [] w9st w9ch 0).1.users[0]? =
        some v ∧
      v.notifications.count (mkSrInsertNotif w9fd "6702" 0) = 1) :=
  ⟨by decide, by decide, by decide,
    dual_audience_single_copy [] w9st w9ch 0 w9fd "6702" 0 w9u rfl rfl rfl rfl
      (by decide) (by decide) (by decide)⟩

def w1fd : SRDoc := { _id := some "6703", userEmail := some "a@x.com", userId := none }

def w1ch : ChangeEvent SRDoc :=
  { operationType := .insert, fullDocument := some w1fd, updateDescription := none }

def w1u : User := { email := some "a@x.com", role := none, notifications := [] }

def w1st : WorldState := { users := [w1u], emitted := [] }

/-- Witness for C1 (amended) at a concrete recipient, replaying the same
synthesized record. -/
theorem fanout_replay_idempotent_amended_witness :
    (matchesFilter (.byEmail w1fd.userEmail) w1u = true ∨
      matchesFilter (.byRoleIn ["mechanic", "admin"]) w1u = true) ∧
    mkSrInsertNotif w1fd "6703" 0 ∉ w1u.notifications ∧
    (∃ v : User,
      (serviceRequestsHandler false false []
          (serviceRequestsHandler false false [] w1st w1ch 0).1
          w1ch 0).1.users[0]? = some v ∧
      v.notifications.count (mkSrInsertNotif w1fd "6703" 0) = 1) :=
  ⟨Or.inl (by decide), by decide,
    fanout_replay_idempotent_amended [] w1st w1ch 0 w1fd "6703" 0 w1u rfl rfl
      rfl rfl (Or.inl (by decide)) (by decide)⟩

def w6fd : SRDoc := { _id := some "6704", userEmail := some "a@x.com", userId := some "u1" }

def w6ch : ChangeEvent SRDoc :=
  { operationType := .update, fullDocument := some w6fd
    updateDescription := some
      { updatedFields := { assignedShopId := some "5f4e7a1b2c3d4e5f6a7b8c9d" } } }

def w6st : WorldState :=
  { users := [{ email := some "a@x.com", role := some "user", notifications := [] }]
    emitted := [] }

/-- Witness for C6 at a concrete assignment update whose shop id resolves
to no document. -/
theorem assignment_lookup_miss_fallback_witness :
    w6ch.operationType = .update ∧
    ("5f4e7a1b2c3d4e5f6a7b8c9d" : String) ≠ "" ∧
    validObjectIdString "5f4e7a1b2c3d4e5f6a7b8c9d" = true ∧
    findShopById [] "5f4e7a1b2c3d4e5f6a7b8c9d" = none ∧
    ((serviceRequestsHandler false false [] w6st w6ch 0).2 = none ∧
     (mkAssignmentNotif w6fd "6704" "5f4e7a1b2c3d4e5f6a7b8c9d"
        "Assigned Shop" 0).message =
       "Service request assigned to \"Assigned Shop\"" ∧
     "Assigned Shop".data <:+:
       (mkAssignmentNotif w6fd "6704" "5f4e7a1b2c3d4e5f6a7b8c9d"
         "Assigned Shop" 0).message.data ∧
     (serviceRequestsHandler false false [] w6st w6ch 0).1.emitted =
       w6st.emitted ++
         [("assignmentNotification",
            mkAssignmentNotif w6fd "6704" "5f4e7a1b2c3d4e5f6a7b8c9d"
              "Assigned Shop" 0),
          ("assignmentNotification",
            mkAssignmentNotif w6fd "6704" "5f4e7a1b2c3d4e5f6a7b8c9d"
              "Assigned Shop" 0)] ∧
     (serviceRequestsHandler false false [] w6st w6ch 0).1.users =
       w6st.users.map (fun u =>
         applyFilterAdd (.byRoleEq "admin")
           (mkAssignmentNotif w6fd "6704" "5f4e7a1b2c3d4e5f6a7b8c9d"
             "Assigned Shop" 0)
           (applyFilterAdd (.byEmail w6fd.userEmail)
             (mkAssignmentNotif w6fd "6704" "5f4e7a1b2c3d4e5f6a7b8c9d"
               "Assigned Shop" 0) u))) :=
  ⟨rfl, by decide, by decide, rfl,
    assignment_lookup_miss_fallback [] w6st w6ch 0 w6fd "6704"
      "5f4e7a1b2c3d4e5f6a7b8c9d" rfl rfl (by decide) (by decide) rfl rfl rfl⟩

def w8ch : ChangeEvent SRDoc :=
  { operationType := .update, fullDocument := none, updateDescription := none }

/-- Witness for C8 at a concrete update event missing both its delta and
its full document. -/
theorem update_synthesis_tolerates_missing_witness :
    w8ch.operationType = .update ∧
    ((serviceRequestsHandler false false [] { users := [], emitted := [] }
        w8ch 0).2 = none ∧
     (w8ch.fullDocument = none →
       (serviceRequestsHandler false false [] { users := [], emitted := [] }
          w8ch 0).1 = { users := [], emitted := [] }) ∧
     (w8ch.updateDescription = none →
       (serviceRequestsHandler false false [] { users := [], emitted := [] }
          w8ch 0).1 = { users := [], emitted := [] })) :=
  ⟨rfl, update_synthesis_tolerates_missing false false []
    { users := [], emitted := [] } w8ch 0 rfl⟩

/-- Witness for C10 at one concrete insert event and one concrete
assignment-update event. -/
theorem broadcast_twice_per_event_witness :
    w5ch.operationType = .insert ∧ w6ch.operationType = .update ∧
    ((serviceRequestsHandler false false [] w5st w5ch 0).1.emitted =
      w5st.emitted ++
        [("serviceRequestNotification", mkSrInsertNotif w5fd "6701" 0),
         ("serviceRequestNotification", mkSrInsertNotif w5fd "6701" 0)] ∧
     (serviceRequestsHandler false false [] w6st w6ch 0).1.emitted =
       w6st.emitted ++
         [("assignmentNotification",
            mkAssignmentNotif w6fd "6704" "5f4e7a1b2c3d4e5f6a7b8c9d"
              (resolveShopName
                (findShopById [] "5f4e7a1b2c3d4e5f6a7b8c9d")) 0),
          ("assignmentNotification",
            mkAssignmentNotif w6fd "6704" "5f4e7a1b2c3d4e5f6a7b8c9d"
              (resolveShopName
                (findShopById [] "5f4e7a1b2c3d4e5f6a7b8c9d")) 0)]) :=
  ⟨rfl, rfl,
    broadcast_twice_per_event [] w5st w6st w5ch w6ch w5fd w6fd "6701" "6704"
      "5f4e7a1b2c3d4e5f6a7b8c9d" 0 0 rfl rfl rfl rfl rfl (by decide)
      (by decide) rfl rfl⟩

end MechaLink
